import Mathlib

/-
Shallow embedding of the response-handling logic of
custom_components/plex_recommendations/sensor.py
(class PlexRecommendationsSensor: _fetch_data, state, extra_state_attributes).
-/

/-- JSON-like value: the shapes a parsed response payload can take in Python
(None, bool, int, float, str, list, dict). Float values keep their source
lexeme; no claim depends on float arithmetic. -/
inductive JVal where
  | jnull : JVal
  | jbool : Bool → JVal
  | jnum : Int → JVal
  | jfloat : String → JVal
  | jstr : String → JVal
  | jarr : List JVal → JVal
  | jobj : List (String × JVal) → JVal
deriving Repr

/-- A Python dict with string keys, modelled as an ordered association list
whose keys are unique (as in a real Python dict). -/
abbrev PyDict := List (String × JVal)

/-- Lookup in a PyDict (first matching key). -/
def dget (d : PyDict) (k : String) : Option JVal :=
  (d.find? (fun p => p.1 = k)).map (fun p => p.2)

/-- Python dict insertion semantics: if the key exists, replace the value in
place (keeping the original position); otherwise append at the end. -/
def dinsert (d : PyDict) (k : String) (v : JVal) : PyDict :=
  if d.any (fun p => p.1 = k) then
    d.map (fun p => if p.1 = k then (k, v) else p)
  else
    d ++ [(k, v)]

/-- Python type name of the value, as used in CPython error messages. -/
def pyTypeName : JVal → String
  | .jnull => "NoneType"
  | .jbool _ => "bool"
  | .jnum _ => "int"
  | .jfloat _ => "float"
  | .jstr _ => "str"
  | .jarr _ => "list"
  | .jobj _ => "dict"

/-- Python len(): defined for str, list and dict; none models the TypeError
raised on other values. -/
def pyLen : JVal → Option Nat
  | .jstr s => some s.length
  | .jarr xs => some xs.length
  | .jobj fs => some fs.length
  | _ => none

/-- Python str() restricted to the scalar values that can reach the
`str(payload)` call in sensor.py line 180 (dicts and lists are taken by the
earlier isinstance branches, so the container cases below are unreachable
from the embedded code; they are given a placeholder value for totality).
For floats the stored lexeme is returned (Python would re-format it; no
claim exercises float payloads). -/
def pyStr : JVal → String
  | .jnull => "None"
  | .jbool true => "True"
  | .jbool false => "False"
  | .jnum n => toString n
  | .jfloat lex => lex
  | .jstr s => s
  | .jarr _ => "<list>"
  | .jobj _ => "<dict>"

/-- Characters treated as line boundaries by Python str.splitlines
(besides the two-character boundary CR LF, handled separately). -/
def isLineBreak (c : Char) : Bool :=
  c = '\n' || c = '\r' || c = '\x0b' || c = '\x0c' ||
  c = '\x1c' || c = '\x1d' || c = '\x1e' || c = '\x85' ||
  c = ' ' || c = ' '

/-- Worker for pySplitlines: accumulates the current line (reversed). -/
def splitlinesGo : List Char → List Char → List String
  | [], acc => if acc.isEmpty then [] else [String.mk acc.reverse]
  | '\r' :: '\n' :: rest, acc => String.mk acc.reverse :: splitlinesGo rest []
  | c :: rest, acc =>
    if isLineBreak c then String.mk acc.reverse :: splitlinesGo rest []
    else splitlinesGo rest (c :: acc)

/-- Python str.splitlines(): split at line boundaries, no trailing empty
line for a terminal newline. -/
def pySplitlines (s : String) : List String :=
  splitlinesGo s.data []

/-- Characters removed by Python str.strip() (str.isspace characters;
the common ASCII and Unicode space characters). -/
def isPySpace (c : Char) : Bool :=
  c = ' ' || c = '\t' || c = '\n' || c = '\r' || c = '\x0b' || c = '\x0c' ||
  c = '\x1c' || c = '\x1d' || c = '\x1e' || c = '\x1f' || c = '\x85' ||
  c = ' ' || c = ' ' || c = ' ' || c = ' ' ||
  c = ' ' || c = ' ' || c = ' ' || c = ' ' ||
  c = ' ' || c = ' ' || c = ' ' || c = ' ' ||
  c = ' ' || c = ' ' || c = ' ' || c = ' ' ||
  c = ' ' || c = '　'

/-- Python str.strip(): drop whitespace from both ends. -/
def pyStrip (s : String) : String :=
  String.mk (((s.data.dropWhile isPySpace).reverse.dropWhile isPySpace).reverse)

/-- Embedding of sensor.py line 169:
lines = [ln.strip() for ln in raw_text.splitlines() if ln.strip()]. -/
def nonEmptyLines (s : String) : List String :=
  ((pySplitlines s).map pyStrip).filter (fun l => l ≠ "")

/-- Whether pat occurs as a contiguous run inside cs. -/
def listInfix (pat : List Char) : List Char → Bool
  | [] => pat.isEmpty
  | c :: rest => pat.isPrefixOf (c :: rest) || listInfix pat rest

/-- Python substring containment, as in the expression
"application/json" in ctype (sensor.py line 150). -/
def substrContains (s pat : String) : Bool :=
  listInfix pat.data s.data

/-- The spaces and tabs trimmed around a media type in a header value. -/
def asciiSpace (c : Char) : Bool :=
  c = ' ' || c = '\t' || c = '\n' || c = '\r'

/-- The media type aiohttp exposes as response.content_type: the part of the
Content-Type header before any parameters, trimmed and lowercased. -/
def mimeOf (ctype : String) : String :=
  String.mk (((((ctype.data.takeWhile (fun c => c ≠ ';')).dropWhile
    asciiSpace).reverse.dropWhile asciiSpace).reverse).map Char.toLower)

/-- List-prefix test over characters. -/
def charsStart (cs pre : List Char) : Bool :=
  pre.isPrefixOf cs

/-- Characters matched by the character class of aiohttp's JSON media-type
pattern, application/(maybe word chars then plus)json. -/
def isWordish (c : Char) : Bool :=
  c.isAlphanum || c = '_' || c = '.' || c = '+' || c = '-'

/-- Whether the character list begins with the four characters json. -/
def startsJson : List Char → Bool
  | 'j' :: 's' :: 'o' :: 'n' :: _ => true
  | _ => false

/-- Whether some nonempty wordish prefix is followed by a plus sign and then
json, mirroring the optional group of aiohttp's JSON media-type pattern.
The flag records that at least one wordish character was consumed. -/
def plusJson : Bool → List Char → Bool
  | _, [] => false
  | seen, c :: rest =>
    (seen && c == '+' && startsJson rest) || (isWordish c && plusJson true rest)

/-- aiohttp's check that a media type is a JSON one (helpers.py json_re,
applied by response.json() before decoding): the type starts with
application/ followed either directly by json or by word characters, a plus
sign, and json.  The pattern is not anchored at the end. -/
def jsonMime (m : String) : Bool :=
  charsStart m.data ['a', 'p', 'p', 'l', 'i', 'c', 'a', 't', 'i', 'o', 'n', '/'] &&
    (startsJson (m.data.drop 12) || plusJson false (m.data.drop 12))

/-- Whitespace skipped between JSON tokens by Python json.loads. -/
def jsonWs (c : Char) : Bool :=
  c = ' ' || c = '\t' || c = '\n' || c = '\r'

/-- Drop inter-token whitespace. -/
def skipWs (cs : List Char) : List Char :=
  cs.dropWhile jsonWs

/-- Value of a hexadecimal digit. -/
def hexVal (c : Char) : Option Nat :=
  if '0' ≤ c ∧ c ≤ '9' then some (c.toNat - '0'.toNat)
  else if 'a' ≤ c ∧ c ≤ 'f' then some (c.toNat - 'a'.toNat + 10)
  else if 'A' ≤ c ∧ c ≤ 'F' then some (c.toNat - 'A'.toNat + 10)
  else none

/-- Code point of a four-hex-digit escape. -/
def hex4 (h1 h2 h3 h4 : Char) : Option Nat := do
  let a ← hexVal h1
  let b ← hexVal h2
  let c ← hexVal h3
  let d ← hexVal h4
  return ((a * 16 + b) * 16 + c) * 16 + d

/-- Turn a code point into a character.  Python strings can hold lone
surrogates, which Lean characters cannot; a lone surrogate is mapped to the
replacement character (no claim exercises surrogate escapes). -/
def codePointChar (n : Nat) : Char :=
  if 0xd800 ≤ n ∧ n ≤ 0xdfff then '�' else Char.ofNat n

/-- JSON string literal body, after the opening quote: returns the decoded
string and the remaining input.  Mirrors Python json.loads in strict mode:
the usual backslash escapes, four-hex-digit escapes with surrogate pairs,
and a raw control character below 0x20 is an error.  The first argument is
fuel, one unit per character, so the recursion is structural; callers pass
one more than the length of the remaining input, which is ample. -/
def parseStringLit : Nat → List Char → List Char → Option (String × List Char)
  | 0, _, _ => none
  | _ + 1, [], _ => none
  | _ + 1, '"' :: rest, acc => some (String.mk acc.reverse, rest)
  | fuel + 1, '\\' :: 'u' :: h1 :: h2 :: h3 :: h4 :: '\\' :: 'u' :: g1 :: g2 :: g3 :: g4 :: rest2, acc =>
    match hex4 h1 h2 h3 h4 with
    | none => none
    | some n =>
      if 0xd800 ≤ n ∧ n ≤ 0xdbff then
        match hex4 g1 g2 g3 g4 with
        | none => none
        | some m =>
          if 0xdc00 ≤ m ∧ m ≤ 0xdfff then
            parseStringLit fuel rest2
              (codePointChar (0x10000 + (n - 0xd800) * 0x400 + (m - 0xdc00)) :: acc)
          else
            parseStringLit fuel ('\\' :: 'u' :: g1 :: g2 :: g3 :: g4 :: rest2)
              (codePointChar n :: acc)
      else
        parseStringLit fuel ('\\' :: 'u' :: g1 :: g2 :: g3 :: g4 :: rest2)
          (codePointChar n :: acc)
  | fuel + 1, '\\' :: 'u' :: h1 :: h2 :: h3 :: h4 :: rest, acc =>
    match hex4 h1 h2 h3 h4 with
    | none => none
    | some n =>
      if (0xd800 ≤ n ∧ n ≤ 0xdbff) ∧ charsStart rest ['\\', 'u'] then none
      else parseStringLit fuel rest (codePointChar n :: acc)
  | fuel + 1, '\\' :: e :: rest, acc =>
    if e = '"' then parseStringLit fuel rest ('"' :: acc)
    else if e = '\\' then parseStringLit fuel rest ('\\' :: acc)
    else if e = '/' then parseStringLit fuel rest ('/' :: acc)
    else if e = 'b' then parseStringLit fuel rest ('\x08' :: acc)
    else if e = 'f' then parseStringLit fuel rest ('\x0c' :: acc)
    else if e = 'n' then parseStringLit fuel rest ('\n' :: acc)
    else if e = 'r' then parseStringLit fuel rest ('\r' :: acc)
    else if e = 't' then parseStringLit fuel rest ('\t' :: acc)
    else none
  | fuel + 1, c :: rest, acc =>
    if c.toNat < 0x20 then none else parseStringLit fuel rest (c :: acc)

/-- JSON number token, following the number pattern of Python's json module:
optional minus, an integer part without leading zeros, then optional
fraction and exponent parts (a malformed fraction or exponent is simply not
consumed, as with the regular expression used by json).  A number without
fraction and exponent is an int; otherwise the float keeps its lexeme. -/
def parseNum (cs : List Char) : Option (JVal × List Char) :=
  let sign : List Char := if cs.headD ' ' = '-' then ['-'] else []
  let cs1 := if cs.headD ' ' = '-' then cs.tail else cs
  let ds := cs1.takeWhile Char.isDigit
  let cs2 := cs1.dropWhile Char.isDigit
  if ds.isEmpty then none
  else if 1 < ds.length && ds.headD '0' = '0' then none
  else
    let fracPair : List Char × List Char :=
      match cs2 with
      | '.' :: r =>
        let fds := r.takeWhile Char.isDigit
        if fds.isEmpty then ([], cs2)
        else ('.' :: fds, r.dropWhile Char.isDigit)
      | _ => ([], cs2)
    let frac := fracPair.1
    let cs3 := fracPair.2
    let expPair : List Char × List Char :=
      match cs3 with
      | e :: r =>
        if e = 'e' || e = 'E' then
          let sgnPair : List Char × List Char :=
            match r with
            | '+' :: rr => (['+'], rr)
            | '-' :: rr => (['-'], rr)
            | _ => ([], r)
          let eds := sgnPair.2.takeWhile Char.isDigit
          if eds.isEmpty then ([], cs3)
          else (e :: (sgnPair.1 ++ eds), sgnPair.2.dropWhile Char.isDigit)
        else ([], cs3)
      | _ => ([], cs3)
    let ex := expPair.1
    let cs4 := expPair.2
    if frac.isEmpty && ex.isEmpty then
      let n : Nat := ds.foldl (fun a c => a * 10 + (c.toNat - 48)) 0
      some (.jnum (if sign.isEmpty then (n : Int) else -(n : Int)), cs2)
    else
      some (.jfloat (String.mk (sign ++ ds ++ frac ++ ex)), cs4)

mutual

/-- One JSON value, fuel-bounded (Python's recursive parser is likewise
bounded, by the interpreter recursion limit).  Accepts the json.loads
grammar including the non-standard NaN and Infinity literals. -/
def parseVal : Nat → List Char → Option (JVal × List Char)
  | 0, _ => none
  | fuel + 1, cs0 =>
    let cs := skipWs cs0
    match cs with
    | '"' :: rest => (parseStringLit (rest.length + 1) rest []).map (fun p => (JVal.jstr p.1, p.2))
    | '{' :: rest => parseMembers fuel rest [] true
    | '[' :: rest => parseElems fuel rest [] true
    | _ =>
      if charsStart cs ['n', 'u', 'l', 'l'] then some (.jnull, cs.drop 4)
      else if charsStart cs ['t', 'r', 'u', 'e'] then some (.jbool true, cs.drop 4)
      else if charsStart cs ['f', 'a', 'l', 's', 'e'] then some (.jbool false, cs.drop 5)
      else if charsStart cs ['N', 'a', 'N'] then some (.jfloat "nan", cs.drop 3)
      else if charsStart cs ['I', 'n', 'f', 'i', 'n', 'i', 't', 'y'] then
        some (.jfloat "inf", cs.drop 8)
      else if charsStart cs ['-', 'I', 'n', 'f', 'i', 'n', 'i', 't', 'y'] then
        some (.jfloat "-inf", cs.drop 9)
      else parseNum cs

/-- Array elements after the opening bracket. -/
def parseElems : Nat → List Char → List JVal → Bool → Option (JVal × List Char)
  | 0, _, _, _ => none
  | fuel + 1, cs0, acc, isFirst =>
    let cs := skipWs cs0
    match cs, isFirst with
    | ']' :: rest, true => some (.jarr [], rest)
    | _, _ =>
      match parseVal fuel cs with
      | none => none
      | some (v, rest1) =>
        match skipWs rest1 with
        | ',' :: rest3 => parseElems fuel rest3 (v :: acc) false
        | ']' :: rest3 => some (.jarr (v :: acc).reverse, rest3)
        | _ => none

/-- Object members after the opening brace; duplicate keys follow Python
dict semantics (last value wins, first position kept). -/
def parseMembers : Nat → List Char → PyDict → Bool → Option (JVal × List Char)
  | 0, _, _, _ => none
  | fuel + 1, cs0, acc, isFirst =>
    let cs := skipWs cs0
    match cs, isFirst with
    | '}' :: rest, true => some (.jobj [], rest)
    | _, _ =>
      match cs with
      | '"' :: rest =>
        match parseStringLit (rest.length + 1) rest [] with
        | none => none
        | some (k, rest1) =>
          match skipWs rest1 with
          | ':' :: rest2 =>
            match parseVal fuel rest2 with
            | none => none
            | some (v, rest3) =>
              match skipWs rest3 with
              | ',' :: rest4 => parseMembers fuel rest4 (dinsert acc k v) false
              | '}' :: rest4 => some (.jobj (dinsert acc k v), rest4)
              | _ => none
          | _ => none
      | _ => none

end

/-- Embedding of Python json.loads as called by aiohttp response.json():
parse one value and require only whitespace after it.  The fuel is ample
for any input of this length. -/
def parseJson (s : String) : Option JVal :=
  match parseVal (3 * s.length + 9) s.data with
  | some (v, rest) => if (skipWs rest).isEmpty then some v else none
  | none => none

/-- The catchable Python exceptions that arise on the embedded fetch path,
each carrying the text str(err) would produce.  asyncio.TimeoutError (raised
by async_timeout on expiry) is a separate constructor because it is NOT a
subclass of aiohttp.ClientError, while aiohttp.ContentTypeError IS one;
str() of a no-argument asyncio.TimeoutError is the empty string. -/
inductive PyExn where
  | clientError : String → PyExn
  | contentTypeError : String → PyExn
  | timeoutError : PyExn
  | jsonDecodeError : String → PyExn
  | attributeError : String → PyExn
  | typeError : String → PyExn

/-- Which exceptions the clause except aiohttp.ClientError (sensor.py line
212) catches: ClientError and its subclass ContentTypeError.  The others
fall to the generic except Exception clause (line 218). -/
def isClientError : PyExn → Bool
  | .clientError _ => true
  | .contentTypeError _ => true
  | _ => false

/-- Python str(err) for each modelled exception. -/
def exnDesc : PyExn → String
  | .clientError d => d
  | .contentTypeError d => d
  | .timeoutError => ""
  | .jsonDecodeError d => d
  | .attributeError d => d
  | .typeError d => d

/-- The observable outcome of the HTTP GET issued by _fetch_data: either a
response (status, raw Content-Type header value, body text), or an
aiohttp.ClientError carrying its str(), or expiry of the
async_timeout bound. -/
inductive FetchOutcome where
  | success : Nat → String → String → FetchOutcome
  | clientFail : String → FetchOutcome
  | timeout : FetchOutcome

/-- The two sensor types constructed in sensor.py async_setup_entry. -/
inductive SensorKind where
  | recommendations : SensorKind
  | recent : SensorKind

/-- The attribute key the sensor files its items under:
ATTR_RECOMMENDATIONS if self._sensor_type == "recommendations" else
ATTR_RECENT (const.py lines 20 and 21). -/
def kindKey : SensorKind → String
  | .recommendations => "recommendations"
  | .recent => "recent"

/-- Embedding of aiohttp response.json(): reject a non-JSON media type with
ContentTypeError (a ClientError subclass), then decode the body with
json.loads, raising JSONDecodeError on failure.  The decode-error text of
CPython also carries the error position, which is not modelled; no claim
constrains that text beyond its being the description of the fault. -/
def respJson (ctype body : String) : Except PyExn JVal :=
  if jsonMime (mimeOf ctype) then
    match parseJson body with
    | some v => Except.ok v
    | none => Except.error (.jsonDecodeError "Expecting value")
  else
    Except.error (.contentTypeError
      ("Attempt to decode JSON with unexpected mimetype: " ++ mimeOf ctype))

/-- Error payload stored by the two except clauses of _fetch_data
(sensor.py lines 212 to 223). -/
def mkErr (k : SensorKind) (msg : String) : PyDict :=
  [("error", .jstr msg), (kindKey k, .jarr [])]

/-- Message chosen for a status other than 200 and 404 (sensor.py lines 192
to 197): try response.json() and error_data.get("detail", "HTTP status");
the bare except turns any failure, including a non-dict payload whose .get
raises AttributeError, into the "HTTP status" default. -/
def otherStatusMsg (s : Nat) (ctype body : String) : JVal :=
  match respJson ctype body with
  | .ok (.jobj fields) => (dget fields "detail").getD (.jstr ("HTTP " ++ toString s))
  | _ => .jstr ("HTTP " ++ toString s)

/-- Embedding of the body of the outer try of _fetch_data (sensor.py lines
141 to 210), given the outcome of the GET.  The yamlParse argument abstracts
the external PyYAML call of lines 162 to 166: it returns the structured
value, or none both when yaml.safe_load raises (or cannot be imported) and
when it yields Python None, the two cases the code merges at line 168.
An Except.error is an exception propagating to the except clauses.
Note the logging call of lines 152 to 156 evaluates
len(payload.get(key, [])) on the decoded JSON payload before the
normalization branches: a non-dict payload raises AttributeError there, and
a dict payload whose key holds a value without len() raises TypeError. -/
def fetchBody (yamlParse : String → Option JVal) (k : SensorKind) :
    FetchOutcome → Except PyExn PyDict
  | .clientFail d => Except.error (.clientError d)
  | .timeout => Except.error .timeoutError
  | .success s ctype body =>
    if s = 200 then
      let payloadE : Except PyExn JVal :=
        if substrContains ctype "application/json" then
          match respJson ctype body with
          | .error e => .error e
          | .ok payload =>
            match payload with
            | .jobj fields =>
              match pyLen ((dget fields (kindKey k)).getD (.jarr [])) with
              | some _ => .ok payload
              | none =>
                .error (.typeError ("object of type '" ++
                  pyTypeName ((dget fields (kindKey k)).getD (.jarr [])) ++
                  "' has no len()"))
            | other =>
              .error (.attributeError ("'" ++ pyTypeName other ++
                "' object has no attribute 'get'"))
        else
          .ok (match yamlParse body with
            | some v => v
            | none => .jarr ((nonEmptyLines body).map .jstr))
      match payloadE with
      | .error e => .error e
      | .ok payload =>
        Except.ok (match payload with
          | .jobj fields => fields
          | .jarr xs => [(kindKey k, .jarr xs)]
          | scalar => [(kindKey k, .jarr [.jstr (pyStr scalar)])])
    else if s = 404 then
      Except.ok [("error", .jstr "Endpoint not found"), (kindKey k, .jarr [])]
    else
      Except.ok [("error", otherStatusMsg s ctype body), (kindKey k, .jarr [])]

/-- The two except clauses of _fetch_data: aiohttp.ClientError gives the
Network error message, any other Exception the Unexpected error message. -/
def handleExn (k : SensorKind) (e : PyExn) : PyDict :=
  if isClientError e then mkErr k ("Network error: " ++ exnDesc e)
  else mkErr k ("Unexpected error: " ++ exnDesc e)

/-- The complete _fetch_data response handling: the dict stored into
self._data for a given GET outcome.  Total by construction: every modelled
exception is absorbed by handleExn. -/
def fetchData (yamlParse : String → Option JVal) (k : SensorKind)
    (o : FetchOutcome) : PyDict :=
  match fetchBody yamlParse k o with
  | .ok d => d
  | .error e => handleExn k e

/-- Embedding of the state property (sensor.py lines 84 to 93):
len(self._data.get(key, [])); none models the TypeError len would raise on
a value without a length. -/
def stateOf (k : SensorKind) (d : PyDict) : Option Nat :=
  pyLen ((dget d (kindKey k)).getD (.jarr []))

/-- Embedding of the extra_state_attributes property (sensor.py lines 95 to
103): the dict display with ATTR_USER_ID first and **self._data merged
over it, with Python dict-literal semantics (a duplicate key keeps its
first position and takes the later value). -/
def extraStateAttributes (userId : String) (data : PyDict) : PyDict :=
  data.foldl (fun d p => dinsert d p.1 p.2) [("user_id", .jstr userId)]

/-- Embedding of the available property (sensor.py lines 105 to 109):
unconditionally true. -/
def availableOf : Bool := true

/-- Whether an Except value is a success. -/
def exceptOk : Except PyExn PyDict → Bool
  | Except.ok _ => true
  | Except.error _ => false

/-- The outcomes claim C8 calls error branches: a 404, any other non-200
status, a network failure or timeout, and a 200 whose handling raised an
exception inside the try. -/
def isErrorOutcome (yamlParse : String → Option JVal) (k : SensorKind) :
    FetchOutcome → Bool
  | FetchOutcome.clientFail _ => true
  | FetchOutcome.timeout => true
  | FetchOutcome.success s ctype body =>
    if s = 200 then
      !(exceptOk (fetchBody yamlParse k (FetchOutcome.success s ctype body)))
    else true

/-! Association-list lemmas about the Python dict model. -/

theorem dget_map_update_self (d : PyDict) (k : String) (v : JVal)
    (h : d.any (fun q => q.1 = k) = true) :
    dget (d.map (fun q => if q.1 = k then (k, v) else q)) k = some v := by
  induction d with
  | nil => simp at h
  | cons p rest ih =>
    by_cases hp : p.1 = k
    · simp [dget, List.find?, hp]
    · have hr : rest.any (fun q => q.1 = k) = true := by
        simp [List.any_cons, hp] at h
        simpa [List.any_eq_true] using h
      simpa [dget, List.find?, hp] using ih hr

theorem dget_map_update_ne (d : PyDict) (k k2 : String) (v : JVal)
    (hne : k2 ≠ k) :
    dget (d.map (fun q => if q.1 = k then (k, v) else q)) k2 = dget d k2 := by
  induction d with
  | nil => simp
  | cons p rest ih =>
    by_cases hp : p.1 = k
    · have hp2 : ¬ (p.1 = k2) := by rw [hp]; exact fun h => hne h.symm
      simpa [dget, List.find?, hp, hp2, Ne.symm hne] using ih
    · by_cases hq : p.1 = k2
      · simp [dget, List.find?, hp, hq, hne]
      · simpa [dget, List.find?, hp, hq] using ih

theorem dget_append_single_self (d : PyDict) (k : String) (v : JVal)
    (h : ¬ (d.any (fun q => q.1 = k) = true)) :
    dget (d ++ [(k, v)]) k = some v := by
  induction d with
  | nil => simp [dget, List.find?]
  | cons p rest ih =>
    have hp : ¬ (p.1 = k) := by
      intro hc
      exact h (by simp [List.any_cons, hc])
    have hr : ¬ (rest.any (fun q => q.1 = k) = true) := by
      intro hc
      exact h (by simp [List.any_cons, hc])
    simpa [dget, List.find?, hp] using ih hr

theorem dget_append_single_ne (d : PyDict) (k k2 : String) (v : JVal)
    (hne : k2 ≠ k) :
    dget (d ++ [(k, v)]) k2 = dget d k2 := by
  induction d with
  | nil => simp [dget, List.find?, Ne.symm hne]
  | cons p rest ih =>
    by_cases hq : p.1 = k2
    · simp [dget, List.find?, hq]
    · simpa [dget, List.find?, hq] using ih

theorem dget_dinsert_self (d : PyDict) (k : String) (v : JVal) :
    dget (dinsert d k v) k = some v := by
  unfold dinsert
  by_cases h : d.any (fun q => q.1 = k) = true
  · rw [if_pos h]; exact dget_map_update_self d k v h
  · rw [if_neg h]; exact dget_append_single_self d k v h

theorem dget_dinsert_ne (d : PyDict) (k k2 : String) (v : JVal)
    (hne : k2 ≠ k) :
    dget (dinsert d k v) k2 = dget d k2 := by
  unfold dinsert
  by_cases h : d.any (fun q => q.1 = k) = true
  · rw [if_pos h]; exact dget_map_update_ne d k k2 v hne
  · rw [if_neg h]; exact dget_append_single_ne d k k2 v hne

theorem dget_foldl_dinsert_ne (data : PyDict) :
    ∀ (acc : PyDict) (k : String), (∀ p ∈ data, p.1 ≠ k) →
      dget (data.foldl (fun d p => dinsert d p.1 p.2) acc) k = dget acc k := by
  induction data with
  | nil => intro acc k _; rfl
  | cons q rest ih =>
    intro acc k h
    have hq : q.1 ≠ k := h q (List.mem_cons_self q rest)
    have hrest : ∀ p ∈ rest, p.1 ≠ k := fun p hp => h p (List.mem_cons_of_mem q hp)
    calc dget (((q :: rest).foldl (fun d p => dinsert d p.1 p.2)) acc) k
        = dget (rest.foldl (fun d p => dinsert d p.1 p.2) (dinsert acc q.1 q.2)) k := rfl
      _ = dget (dinsert acc q.1 q.2) k := ih _ k hrest
      _ = dget acc k := dget_dinsert_ne acc q.1 k q.2 (fun hc => hq hc.symm)

theorem dget_foldl_dinsert_mem (data : PyDict) :
    ∀ (acc : PyDict) (k : String) (v : JVal),
      (data.map Prod.fst).Nodup → (k, v) ∈ data →
      dget (data.foldl (fun d p => dinsert d p.1 p.2) acc) k = some v := by
  induction data with
  | nil => intro acc k v _ hmem; simp at hmem
  | cons q rest ih =>
    intro acc k v hnodup hmem
    rw [List.map_cons] at hnodup
    have hnodupc := List.nodup_cons.mp hnodup
    rcases List.mem_cons.mp hmem with heq | hmemr
    · have hqk : q.1 = k := by rw [← heq]
      have hqv : q.2 = v := by rw [← heq]
      have hrest : ∀ p ∈ rest, p.1 ≠ k := by
        intro p hp hc
        apply hnodupc.1
        rw [hqk, ← hc]
        exact List.mem_map_of_mem Prod.fst hp
      calc dget (((q :: rest).foldl (fun d p => dinsert d p.1 p.2)) acc) k
          = dget (rest.foldl (fun d p => dinsert d p.1 p.2) (dinsert acc q.1 q.2)) k := rfl
        _ = dget (dinsert acc q.1 q.2) k := dget_foldl_dinsert_ne rest _ k hrest
        _ = some v := by rw [hqk, hqv]; exact dget_dinsert_self acc k v
    · exact ih (dinsert acc q.1 q.2) k v hnodupc.2 hmemr

theorem dinsert_fresh (d : PyDict) (k : String) (v : JVal)
    (h : k ∉ d.map Prod.fst) :
    dinsert d k v = d ++ [(k, v)] := by
  unfold dinsert
  rw [if_neg ?_]
  intro hc
  rcases List.any_eq_true.mp hc with ⟨q, hq, hqk⟩
  have hq1 : q.1 = k := by simpa using hqk
  exact h (hq1 ▸ List.mem_map_of_mem Prod.fst hq)

theorem foldl_dinsert_fresh (data : PyDict) :
    ∀ (acc : PyDict),
      (data.map Prod.fst).Nodup →
      (∀ p ∈ data, p.1 ∉ acc.map Prod.fst) →
      data.foldl (fun d p => dinsert d p.1 p.2) acc = acc ++ data := by
  induction data with
  | nil => intro acc _ _; simp
  | cons q rest ih =>
    intro acc hnodup hfresh
    rw [List.map_cons] at hnodup
    have hnodupc := List.nodup_cons.mp hnodup
    have hq : q.1 ∉ acc.map Prod.fst := hfresh q (List.mem_cons_self q rest)
    have step : dinsert acc q.1 q.2 = acc ++ [q] := by
      have := dinsert_fresh acc q.1 q.2 hq
      simpa using this
    have hfresh2 : ∀ p ∈ rest, p.1 ∉ (acc ++ [q]).map Prod.fst := by
      intro p hp
      rw [List.map_append, List.mem_append]
      rintro (hin | hin)
      · exact hfresh p (List.mem_cons_of_mem q hp) hin
      · simp only [List.map_cons, List.map_nil, List.mem_singleton] at hin
        exact hnodupc.1 (hin ▸ List.mem_map_of_mem Prod.fst hp)
    calc (q :: rest).foldl (fun d p => dinsert d p.1 p.2) acc
        = rest.foldl (fun d p => dinsert d p.1 p.2) (dinsert acc q.1 q.2) := rfl
      _ = rest.foldl (fun d p => dinsert d p.1 p.2) (acc ++ [q]) := by rw [step]
      _ = (acc ++ [q]) ++ rest := ih (acc ++ [q]) hnodupc.2 hfresh2
      _ = acc ++ (q :: rest) := by simp

/-! Claim theorems. -/

theorem dget_errdict (k : SensorKind) (m : JVal) :
    dget [("error", m), (kindKey k, .jarr [])] (kindKey k) = some (.jarr []) ∧
    stateOf k [("error", m), (kindKey k, .jarr [])] = some 0 := by
  cases k <;> simp [dget, stateOf, pyLen, kindKey, List.find?]

/-- Claim C1 (code bug): for a status-200 application/json response whose
body is the JSON array of two title objects, the stored dict is NOT the
array under the kind key with state 2 as the claim says; the logging call of
sensor.py line 152 evaluates payload.get on the list, raising
AttributeError, so the generic handler stores an Unexpected error with an
empty item list and the displayed state is 0. -/
theorem C1_json_array_logging_fault :
    fetchData (fun _ => none) SensorKind.recommendations
        (FetchOutcome.success 200 "application/json"
          "[\x7b\"title\":\"A\"\x7d,\x7b\"title\":\"B\"\x7d]") =
      [("error", JVal.jstr "Unexpected error: 'list' object has no attribute 'get'"),
       ("recommendations", JVal.jarr [])] ∧
    stateOf SensorKind.recommendations
        (fetchData (fun _ => none) SensorKind.recommendations
          (FetchOutcome.success 200 "application/json"
            "[\x7b\"title\":\"A\"\x7d,\x7b\"title\":\"B\"\x7d]")) = some 0 ∧
    dget (fetchData (fun _ => none) SensorKind.recommendations
        (FetchOutcome.success 200 "application/json"
          "[\x7b\"title\":\"A\"\x7d,\x7b\"title\":\"B\"\x7d]")) "recommendations" ≠
      some (JVal.jarr [JVal.jobj [("title", JVal.jstr "A")],
                       JVal.jobj [("title", JVal.jstr "B")]]) := by
  refine ⟨rfl, rfl, ?_⟩
  intro h
  have h0 : dget (fetchData (fun _ => none) SensorKind.recommendations
      (FetchOutcome.success 200 "application/json"
        "[\x7b\"title\":\"A\"\x7d,\x7b\"title\":\"B\"\x7d]")) "recommendations" =
      some (JVal.jarr []) := rfl
  rw [h0] at h
  simp at h

/-- Claim C2, counterexample: a parse failure on the 200 path with a JSON
content-type does not degrade to the line-splitting fallback as the claim
says; response.json() raises, the generic handler stores an Unexpected
error dict with empty items, not Ok with items equal to the non-empty
trimmed lines. -/
theorem C2_json_parse_failure_not_line_split :
    fetchData (fun _ => none) SensorKind.recommendations
        (FetchOutcome.success 200 "application/json" "not json") =
      [("error", JVal.jstr "Unexpected error: Expecting value"),
       ("recommendations", JVal.jarr [])] ∧
    fetchData (fun _ => none) SensorKind.recommendations
        (FetchOutcome.success 200 "application/json" "not json") ≠
      [("recommendations", JVal.jarr [JVal.jstr "not json"])] := by
  refine ⟨rfl, ?_⟩
  intro h
  have h0 : fetchData (fun _ => none) SensorKind.recommendations
      (FetchOutcome.success 200 "application/json" "not json") =
      [("error", JVal.jstr "Unexpected error: Expecting value"),
       ("recommendations", JVal.jarr [])] := rfl
  rw [h0] at h
  simp at h

/-- Claim C2, amended: on the 200 path with a content-type that does not
contain application/json, when the structured-text (YAML) parse of the body
yields no value, the stored dict is the non-empty trimmed lines of the body
under the kind key (the empty list when the body is all blank lines), and
the displayed state is the number of those lines. -/
theorem C2_lines_fallback (yamlParse : String → Option JVal) (k : SensorKind)
    (ctype body : String)
    (hct : substrContains ctype "application/json" = false)
    (hyaml : yamlParse body = none) :
    fetchData yamlParse k (FetchOutcome.success 200 ctype body) =
      [(kindKey k, JVal.jarr ((nonEmptyLines body).map JVal.jstr))] ∧
    stateOf k (fetchData yamlParse k (FetchOutcome.success 200 ctype body)) =
      some (nonEmptyLines body).length := by
  have h1 : fetchBody yamlParse k (FetchOutcome.success 200 ctype body) =
      Except.ok [(kindKey k, JVal.jarr ((nonEmptyLines body).map JVal.jstr))] := by
    simp [fetchBody, hct, hyaml]
  constructor
  · simp [fetchData, h1]
  · simp [fetchData, h1, stateOf, dget, List.find?, pyLen]

/-- Claim C2, witness: text/plain body of two name lines with a failing
structured parse produces exactly those two items and state 2. -/
theorem C2_lines_fallback_witness :
    fetchData (fun _ => none) SensorKind.recommendations
        (FetchOutcome.success 200 "text/plain" "Inception\nTenet\n") =
      [("recommendations", JVal.jarr [JVal.jstr "Inception", JVal.jstr "Tenet"])] ∧
    stateOf SensorKind.recommendations
        (fetchData (fun _ => none) SensorKind.recommendations
          (FetchOutcome.success 200 "text/plain" "Inception\nTenet\n")) = some 2 := by
  have h := C2_lines_fallback (fun _ => none) SensorKind.recommendations
    "text/plain" "Inception\nTenet\n" rfl rfl
  exact ⟨h.1.trans rfl, h.2.trans rfl⟩

/-- Claim C3: whenever the body of the outer try raises an exception that is
not an aiohttp.ClientError, the stored result is the Unexpected error
message built from str(err) with an empty item list; together with the
catch-all type of fetchData this is the totality of normalization over the
modelled faults. -/
theorem C3_unexpected_fault_boundary (yamlParse : String → Option JVal)
    (k : SensorKind) (o : FetchOutcome) (e : PyExn)
    (hrun : fetchBody yamlParse k o = Except.error e)
    (hnc : isClientError e = false) :
    fetchData yamlParse k o =
      [("error", JVal.jstr ("Unexpected error: " ++ exnDesc e)),
       (kindKey k, JVal.jarr [])] := by
  simp [fetchData, hrun, handleExn, hnc, mkErr]

/-- Claim C3, witness: a JSON list body on the 200 path raises
AttributeError inside the try and is stored as an Unexpected error. -/
theorem C3_unexpected_fault_boundary_witness :
    fetchBody (fun _ => none) SensorKind.recommendations
        (FetchOutcome.success 200 "application/json" "[1]") =
      Except.error (PyExn.attributeError "'list' object has no attribute 'get'") ∧
    fetchData (fun _ => none) SensorKind.recommendations
        (FetchOutcome.success 200 "application/json" "[1]") =
      [("error", JVal.jstr "Unexpected error: 'list' object has no attribute 'get'"),
       ("recommendations", JVal.jarr [])] := by
  constructor
  · rfl
  · exact C3_unexpected_fault_boundary (fun _ => none) SensorKind.recommendations
      (FetchOutcome.success 200 "application/json" "[1]")
      (PyExn.attributeError "'list' object has no attribute 'get'") rfl rfl

/-- Claim C4, counterexample: expiry of the bounded wait is not stored with
the Network error message the claim requires for timeouts; the stored
message is the Unexpected error one, because asyncio.TimeoutError is not an
aiohttp.ClientError. -/
theorem C4_timeout_not_network_error :
    fetchData (fun _ => none) SensorKind.recommendations FetchOutcome.timeout =
      [("error", JVal.jstr "Unexpected error: "),
       ("recommendations", JVal.jarr [])] ∧
    ¬ ∃ desc : String,
        dget (fetchData (fun _ => none) SensorKind.recommendations
          FetchOutcome.timeout) "error" =
          some (JVal.jstr ("Network error: " ++ desc)) := by
  refine ⟨rfl, ?_⟩
  rintro ⟨desc, hd⟩
  have h0 : dget (fetchData (fun _ => none) SensorKind.recommendations
      FetchOutcome.timeout) "error" = some (JVal.jstr "Unexpected error: ") := rfl
  rw [h0] at hd
  injection hd with hd1
  injection hd1 with h1
  have h2 : ("Unexpected error: " : String).data.headD ' ' =
      (("Network error: " : String) ++ desc).data.headD ' ' :=
    congrArg (fun s => s.data.headD ' ') h1
  have e1 : ("Unexpected error: " : String).data.headD ' ' = 'U' := rfl
  have e2 : (("Network error: " : String) ++ desc).data.headD ' ' = 'N' := rfl
  rw [e1, e2] at h2
  exact absurd h2 (by decide)

/-- Claim C4, amended: an aiohttp.ClientError is stored as the Network
error message built from str(err) with empty items, while a timeout of the
bounded wait raises asyncio.TimeoutError, which is not a ClientError, and
is stored by the generic handler as the Unexpected error message with the
empty str() of the timeout, likewise with empty items. -/
theorem C4_network_error_and_timeout (yamlParse : String → Option JVal)
    (k : SensorKind) (desc : String) :
    fetchData yamlParse k (FetchOutcome.clientFail desc) =
      [("error", JVal.jstr ("Network error: " ++ desc)),
       (kindKey k, JVal.jarr [])] ∧
    fetchData yamlParse k FetchOutcome.timeout =
      [("error", JVal.jstr "Unexpected error: "),
       (kindKey k, JVal.jarr [])] := by
  constructor
  · rfl
  · rfl

/-- Claim C5: for a status other than 200 and 404, when the body decodes as
a JSON object carrying a detail field that value is stored as the error
message, and when response.json() fails the message is HTTP with the
status; both branches store an empty item list. -/
theorem C5_other_status_detail :
    (∀ (yamlParse : String → Option JVal) (k : SensorKind) (s : Nat)
        (ctype body : String) (fields : PyDict) (v : JVal),
      s ≠ 200 → s ≠ 404 →
      respJson ctype body = Except.ok (JVal.jobj fields) →
      dget fields "detail" = some v →
      fetchData yamlParse k (FetchOutcome.success s ctype body) =
        [("error", v), (kindKey k, JVal.jarr [])]) ∧
    (∀ (yamlParse : String → Option JVal) (k : SensorKind) (s : Nat)
        (ctype body : String) (e : PyExn),
      s ≠ 200 → s ≠ 404 →
      respJson ctype body = Except.error e →
      fetchData yamlParse k (FetchOutcome.success s ctype body) =
        [("error", JVal.jstr ("HTTP " ++ toString s)), (kindKey k, JVal.jarr [])]) := by
  constructor
  · intro yamlParse k s ctype body fields v h200 h404 hresp hdetail
    simp [fetchData, fetchBody, h200, h404, otherStatusMsg, hresp, hdetail]
  · intro yamlParse k s ctype body e h200 h404 hresp
    simp [fetchData, fetchBody, h200, h404, otherStatusMsg, hresp]

/-- Claim C5, witness: a 500 with a JSON detail stores that detail, and a
500 whose body cannot be decoded as JSON stores HTTP 500; both with empty
items. -/
theorem C5_other_status_detail_witness :
    fetchData (fun _ => none) SensorKind.recommendations
        (FetchOutcome.success 500 "application/json" "\x7b\"detail\":\"db down\"\x7d") =
      [("error", JVal.jstr "db down"), ("recommendations", JVal.jarr [])] ∧
    fetchData (fun _ => none) SensorKind.recent
        (FetchOutcome.success 500 "text/plain" "oops") =
      [("error", JVal.jstr "HTTP 500"), ("recent", JVal.jarr [])] := by
  constructor
  · exact C5_other_status_detail.1 (fun _ => none) SensorKind.recommendations 500
      "application/json" "\x7b\"detail\":\"db down\"\x7d"
      [("detail", JVal.jstr "db down")] (JVal.jstr "db down")
      (by decide) (by decide) rfl rfl
  · exact C5_other_status_detail.2 (fun _ => none) SensorKind.recent 500
      "text/plain" "oops"
      (PyExn.contentTypeError "Attempt to decode JSON with unexpected mimetype: text/plain")
      (by decide) (by decide) rfl

/-- Claim C6: a 404 stores the Endpoint not found error with an empty item
list under the kind key, whatever the content type and body, and the
displayed state is 0. -/
theorem C6_not_found (yamlParse : String → Option JVal) (k : SensorKind)
    (ctype body : String) :
    fetchData yamlParse k (FetchOutcome.success 404 ctype body) =
      [("error", JVal.jstr "Endpoint not found"), (kindKey k, JVal.jarr [])] ∧
    stateOf k (fetchData yamlParse k (FetchOutcome.success 404 ctype body)) =
      some 0 := by
  have h : fetchData yamlParse k (FetchOutcome.success 404 ctype body) =
      [("error", JVal.jstr "Endpoint not found"), (kindKey k, JVal.jarr [])] := rfl
  refine ⟨h, ?_⟩
  rw [h]
  exact (dget_errdict k (JVal.jstr "Endpoint not found")).2

/-- Claim C7, counterexample: a status-200 JSON object body is not always
passed through preserving its keys; when the kind key holds a value without
len(), the logging call of sensor.py line 152 raises TypeError and an
Unexpected error dict is stored instead of the object. -/
theorem C7_unsized_kind_value_fault :
    fetchData (fun _ => none) SensorKind.recommendations
        (FetchOutcome.success 200 "application/json" "\x7b\"recommendations\": 5\x7d") =
      [("error", JVal.jstr "Unexpected error: object of type 'int' has no len()"),
       ("recommendations", JVal.jarr [])] ∧
    fetchData (fun _ => none) SensorKind.recommendations
        (FetchOutcome.success 200 "application/json" "\x7b\"recommendations\": 5\x7d") ≠
      [("recommendations", JVal.jnum 5)] := by
  refine ⟨rfl, ?_⟩
  intro h
  have h0 : fetchData (fun _ => none) SensorKind.recommendations
      (FetchOutcome.success 200 "application/json" "\x7b\"recommendations\": 5\x7d") =
      [("error", JVal.jstr "Unexpected error: object of type 'int' has no len()"),
       ("recommendations", JVal.jarr [])] := rfl
  rw [h0] at h
  simp at h

/-- Claim C7, amended: a status-200 JSON object body whose kind key, if
present, holds a value with a length is stored unchanged, preserving every
key (generated_at included), and the displayed state reads the kind key
with the empty-list default. -/
theorem C7_object_passthrough (yamlParse : String → Option JVal)
    (k : SensorKind) (ctype body : String) (fields : PyDict) (n : Nat)
    (hct : substrContains ctype "application/json" = true)
    (hmime : jsonMime (mimeOf ctype) = true)
    (hparse : parseJson body = some (JVal.jobj fields))
    (hlen : pyLen ((dget fields (kindKey k)).getD (JVal.jarr [])) = some n) :
    fetchData yamlParse k (FetchOutcome.success 200 ctype body) = fields ∧
    stateOf k (fetchData yamlParse k (FetchOutcome.success 200 ctype body)) =
      some n := by
  have hresp : respJson ctype body = Except.ok (JVal.jobj fields) := by
    simp [respJson, hmime, hparse]
  have h1 : fetchBody yamlParse k (FetchOutcome.success 200 ctype body) =
      Except.ok fields := by
    simp [fetchBody, hct, hresp, hlen]
  have h2 : fetchData yamlParse k (FetchOutcome.success 200 ctype body) = fields := by
    simp [fetchData, h1]
  refine ⟨h2, ?_⟩
  rw [h2]
  simpa [stateOf] using hlen

/-- Claim C7, witness: an object with one recommendation and a generated_at
stamp is stored unchanged with state 1. -/
theorem C7_object_passthrough_witness :
    fetchData (fun _ => none) SensorKind.recommendations
        (FetchOutcome.success 200 "application/json"
          "\x7b\"recommendations\":[\x7b\"title\":\"A\"\x7d],\"generated_at\":\"2024\"\x7d") =
      [("recommendations", JVal.jarr [JVal.jobj [("title", JVal.jstr "A")]]),
       ("generated_at", JVal.jstr "2024")] ∧
    stateOf SensorKind.recommendations
        (fetchData (fun _ => none) SensorKind.recommendations
          (FetchOutcome.success 200 "application/json"
            "\x7b\"recommendations\":[\x7b\"title\":\"A\"\x7d],\"generated_at\":\"2024\"\x7d")) =
      some 1 :=
  C7_object_passthrough (fun _ => none) SensorKind.recommendations
    "application/json"
    "\x7b\"recommendations\":[\x7b\"title\":\"A\"\x7d],\"generated_at\":\"2024\"\x7d"
    [("recommendations", JVal.jarr [JVal.jobj [("title", JVal.jstr "A")]]),
     ("generated_at", JVal.jstr "2024")] 1 rfl rfl rfl rfl

/-- Claim C8: on every error branch (404, other non-200, client failure,
timeout, or an exception on the 200 path) the stored dict holds the empty
list under the kind key, so the displayed state is 0. -/
theorem C8_error_empty_items (yamlParse : String → Option JVal)
    (k : SensorKind) (o : FetchOutcome)
    (h : isErrorOutcome yamlParse k o = true) :
    dget (fetchData yamlParse k o) (kindKey k) = some (JVal.jarr []) ∧
    stateOf k (fetchData yamlParse k o) = some 0 := by
  cases o with
  | clientFail d =>
    have hfd : fetchData yamlParse k (FetchOutcome.clientFail d) =
        [("error", JVal.jstr ("Network error: " ++ d)), (kindKey k, JVal.jarr [])] :=
      rfl
    rw [hfd]
    exact dget_errdict k _
  | timeout =>
    have hfd : fetchData yamlParse k FetchOutcome.timeout =
        [("error", JVal.jstr "Unexpected error: "), (kindKey k, JVal.jarr [])] := rfl
    rw [hfd]
    exact dget_errdict k _
  | success s ctype body =>
    by_cases hs : s = 200
    · subst hs
      cases hfb : fetchBody yamlParse k (FetchOutcome.success 200 ctype body) with
      | ok d =>
        exfalso
        simp [isErrorOutcome, hfb, exceptOk] at h
      | error e =>
        have hfd : fetchData yamlParse k (FetchOutcome.success 200 ctype body) =
            handleExn k e := by
          simp [fetchData, hfb]
        rw [hfd]
        unfold handleExn
        by_cases hce : isClientError e = true
        · rw [if_pos hce]
          simp only [mkErr]
          exact dget_errdict k _
        · rw [if_neg hce]
          simp only [mkErr]
          exact dget_errdict k _
    · by_cases h404 : s = 404
      · subst h404
        have hfd : fetchData yamlParse k (FetchOutcome.success 404 ctype body) =
            [("error", JVal.jstr "Endpoint not found"), (kindKey k, JVal.jarr [])] :=
          rfl
        rw [hfd]
        exact dget_errdict k _
      · have hfd : fetchData yamlParse k (FetchOutcome.success s ctype body) =
            [("error", otherStatusMsg s ctype body), (kindKey k, JVal.jarr [])] := by
          simp [fetchData, fetchBody, hs, h404]
        rw [hfd]
        exact dget_errdict k _

/-- Claim C8, witness: the 404 branch stores the empty list with state 0. -/
theorem C8_error_empty_items_witness :
    isErrorOutcome (fun _ => none) SensorKind.recommendations
        (FetchOutcome.success 404 "text/plain" "nope") = true ∧
    dget (fetchData (fun _ => none) SensorKind.recommendations
        (FetchOutcome.success 404 "text/plain" "nope"))
      (kindKey SensorKind.recommendations) = some (JVal.jarr []) ∧
    stateOf SensorKind.recommendations
        (fetchData (fun _ => none) SensorKind.recommendations
          (FetchOutcome.success 404 "text/plain" "nope")) = some 0 := by
  have h := C8_error_empty_items (fun _ => none) SensorKind.recommendations
    (FetchOutcome.success 404 "text/plain" "nope") rfl
  exact ⟨rfl, h.1, h.2⟩

/-- Claim C9, counterexample: the attributes of a stored payload with a
generated_at stamp and four titled items are exactly the user id plus the
payload entries; no derived convenience fields (no first-titles list, no
per-item fields) appear. -/
theorem C9_no_derived_fields :
    extraStateAttributes "u1"
        [("generated_at", JVal.jstr "t0"),
         ("recommendations", JVal.jarr
           [JVal.jobj [("title", JVal.jstr "A")], JVal.jobj [("title", JVal.jstr "B")],
            JVal.jobj [("title", JVal.jstr "C")], JVal.jobj [("title", JVal.jstr "D")]])] =
      [("user_id", JVal.jstr "u1"),
       ("generated_at", JVal.jstr "t0"),
       ("recommendations", JVal.jarr
         [JVal.jobj [("title", JVal.jstr "A")], JVal.jobj [("title", JVal.jstr "B")],
          JVal.jobj [("title", JVal.jstr "C")], JVal.jobj [("title", JVal.jstr "D")]])] ∧
    (extraStateAttributes "u1"
        [("generated_at", JVal.jstr "t0"),
         ("recommendations", JVal.jarr
           [JVal.jobj [("title", JVal.jstr "A")], JVal.jobj [("title", JVal.jstr "B")],
            JVal.jobj [("title", JVal.jstr "C")], JVal.jobj [("title", JVal.jstr "D")]])]).map
        Prod.fst =
      ["user_id", "generated_at", "recommendations"] :=
  ⟨rfl, rfl⟩

/-- Claim C9, amended: for a payload whose keys are distinct and do not
include user_id, the attributes are the user id entry followed by exactly
the payload entries, nothing more: the user id, generated_at when present
and the full item sequence are all there, and no derived fields exist. -/
theorem C9_attributes_passthrough (uid : String) (data : PyDict)
    (hnodup : (data.map Prod.fst).Nodup)
    (hno : "user_id" ∉ data.map Prod.fst) :
    extraStateAttributes uid data = ("user_id", JVal.jstr uid) :: data := by
  unfold extraStateAttributes
  have hfresh : ∀ p ∈ data,
      p.1 ∉ ([("user_id", JVal.jstr uid)] : PyDict).map Prod.fst := by
    intro p hp
    simp only [List.map_cons, List.map_nil, List.mem_singleton]
    intro hc
    exact hno (hc ▸ List.mem_map_of_mem Prod.fst hp)
  have h := foldl_dinsert_fresh data [("user_id", JVal.jstr uid)] hnodup hfresh
  simpa using h

/-- Claim C9, amended witness: a two-entry payload yields exactly the user
id entry followed by the payload. -/
theorem C9_attributes_passthrough_witness :
    extraStateAttributes "u7"
        [("generated_at", JVal.jstr "2024-05-01"),
         ("recommendations", JVal.jarr [JVal.jobj [("title", JVal.jstr "Dune")]])] =
      [("user_id", JVal.jstr "u7"),
       ("generated_at", JVal.jstr "2024-05-01"),
       ("recommendations", JVal.jarr [JVal.jobj [("title", JVal.jstr "Dune")]])] :=
  C9_attributes_passthrough "u7"
    [("generated_at", JVal.jstr "2024-05-01"),
     ("recommendations", JVal.jarr [JVal.jobj [("title", JVal.jstr "Dune")]])]
    (by decide) (by decide)

/-- Claim C10: the attributes dict is built with the user id entry first
and the payload merged over it, so a payload carrying its own user_id entry
overrides the fetcher's value. -/
theorem C10_payload_user_id_overrides (uid : String) (data : PyDict) (v : JVal)
    (hnodup : (data.map Prod.fst).Nodup)
    (hmem : ("user_id", v) ∈ data) :
    dget (extraStateAttributes uid data) "user_id" = some v := by
  unfold extraStateAttributes
  exact dget_foldl_dinsert_mem data [("user_id", JVal.jstr uid)] "user_id" v hnodup hmem

/-- Claim C10, witness: a payload user_id of payload-user wins over the
fetcher's u1. -/
theorem C10_payload_user_id_overrides_witness :
    dget (extraStateAttributes "u1" [("user_id", JVal.jstr "payload-user")])
      "user_id" = some (JVal.jstr "payload-user") :=
  C10_payload_user_id_overrides "u1" [("user_id", JVal.jstr "payload-user")]
    (JVal.jstr "payload-user") (by decide) (List.mem_singleton.mpr rfl)
